import Mathlib

/-!
Shallow embedding of `src/main.py` from the dyson-alert repository.

The script loads configuration from the environment and a CLI flag,
connects to a Dyson air purifier, reads the current humidity, loads the
previously persisted humidity from `state.json`, evaluates a rising-edge
and a falling-edge threshold check, sends Pushover notifications for the
checks that fire, and persists the new humidity.

Machine integers do not overflow in the source (small humidity
percentages), so humidity values and thresholds are embedded as `Int`.
External effects (device connection, HTTP delivery, the state file) are
embedded as explicit inputs in a `World` record, and the observable
behaviour of one process run is a `Trace`.
-/

set_option autoImplicit false

namespace DysonAlert

/-- The persisted record stored in `state.json`.  The script reads and
writes exactly one field, `last_humidity`, via `state.get` and
`state[quoted-key] = value`; the field is absent on the first run. -/
structure StateRec where
  last_humidity : Option Int
deriving Repr, DecidableEq

/-- The empty record `load_state` returns when the file is missing
(the Python literal `{ }`, with no `last_humidity` key). -/
def emptyState : StateRec := ⟨none⟩

/-- State of the backing file `state.json` before the run: absent,
present but unreadable (corrupt JSON, permission error, ...), or
present with a readable persisted record. -/
inductive FileState where
  | missing
  | unreadable
  | content (r : StateRec)
deriving Repr, DecidableEq

/-- `load_state` (main.py lines 30-35): open and parse the file,
catching only `FileNotFoundError`, which yields the empty record.  Any
other read failure propagates as an uncaught exception (`Except.error`). -/
def load_state : FileState → Except String StateRec
  | .missing => .ok emptyState
  | .unreadable => .error "unhandled exception while reading state file"
  | .content r => .ok r

/-- `save_state` (main.py lines 25-27): open the file in write mode and
dump the record, replacing whatever was there before. -/
def save_state (r : StateRec) (_fs : FileState) : FileState :=
  .content r

/-- Failure kinds of `device.connect` caught in main.py lines 96-112. -/
inductive DysonError where
  | invalidCredential
  | connectionRefused
  | connectTimeout
  | notConnected
  | unexpected
deriving Repr, DecidableEq

/-- Failure kinds of the Pushover POST caught in `send_pushover_alert`
(main.py lines 48-59). -/
inductive NotifyError where
  | httpError
  | connectionError
  | timeoutError
  | requestError
deriving Repr, DecidableEq

/-- The six required environment variables (main.py lines 81-86); each
is either unset (`none`) or set to a string. -/
structure Env where
  dyson_serial : Option String
  dyson_credential : Option String
  dyson_device_type : Option String
  dyson_host : Option String
  pushover_app_token : Option String
  pushover_user_token : Option String
deriving Repr, DecidableEq

/-- Python truthiness of `os.environ.get(name)`: `None` and the empty
string are falsy, every other string is truthy. -/
def envVarTruthy : Option String → Bool
  | none => false
  | some s => !(s == "")

/-- The credential check of main.py lines 81-86:
`not get(..) or not get(..) or ...`, negated (true means all present). -/
def envOk (e : Env) : Bool :=
  envVarTruthy e.dyson_serial &&
  envVarTruthy e.dyson_credential &&
  envVarTruthy e.dyson_device_type &&
  envVarTruthy e.dyson_host &&
  envVarTruthy e.pushover_app_token &&
  envVarTruthy e.pushover_user_token

/-- The rising-edge condition of main.py lines 129-131:
`device.humidity >= args.max_humidity` and then
`last_humidity is None or last_humidity <= args.max_humidity`. -/
def risingFires (c : Int) (p : Option Int) (m : Int) : Bool :=
  if c ≥ m then
    match p with
    | none => true
    | some v => decide (v ≤ m)
  else
    false

/-- The falling-edge condition of main.py lines 136-137:
`device.humidity < args.max_humidity and last_humidity > args.max_humidity`.
Python `and` short-circuits, so the right operand is only evaluated when
`device.humidity < args.max_humidity`; there, `None > int` raises an
uncaught `TypeError`, embedded as `Except.error`. -/
def recoveryCheck (c : Int) (p : Option Int) (m : Int) : Except String Bool :=
  if c < m then
    match p with
    | none => .error "TypeError: unorderable NoneType and int"
    | some v => .ok (decide (v > m))
  else
    .ok false

/-- Title of the rising-edge notification (main.py line 132). -/
def risingTitle : String := "Rel. humidity above threshold"

/-- Message of the rising-edge notification (main.py line 133). -/
def risingMsg (c : Int) : String := "Humidity is: " ++ toString c ++ "%"

/-- Title of the recovery notification (main.py line 138). -/
def recoveryTitle : String := "Rel. humidity OK"

/-- Message of the recovery notification (main.py line 139). -/
def recoveryMsg (c : Int) : String :=
  "Humidity returned to OK value (" ++ toString c ++ "%)"

/-- All external inputs of one process run: the parsed CLI flag, the
environment, the outcome the device client would produce, the humidity
the device reports, the state file on disk, and the outcome the Pushover
endpoint would produce for a given notification title. -/
structure World where
  max_humidity : Option Int
  env : Env
  connectResult : Except DysonError Unit
  humidity : Int
  fileState : FileState
  deliver : String → Option NotifyError

/-- Observable behaviour of one run: whether `device.connect` was
reached, whether the state file was read, the notification attempts in
order (title, message), whether some delivery attempt failed, whether
the run died on an uncaught exception, the state file afterwards, and
the process exit code. -/
structure Trace where
  connectAttempted : Bool
  stateLoaded : Bool
  attempted : List (String × String)
  deliveryFailed : Bool
  crashed : Bool
  finalFile : FileState
  exitCode : Nat
deriving Repr, DecidableEq

/-- State write and successful exit (main.py lines 141-144): mutate the
loaded record with the humidity just read, save it, log Done, exit 0. -/
def finishRun (w : World) (st : StateRec) (att : List (String × String)) : Trace :=
  { connectAttempted := true
    stateLoaded := true
    attempted := att
    deliveryFailed := false
    crashed := false
    finalFile := save_state { st with last_humidity := some w.humidity } w.fileState
    exitCode := 0 }

/-- The falling-edge block of main.py lines 135-139, given the
notification attempts already made by the rising-edge block: evaluate
the recovery condition (which can raise), send on fire (exiting with
code 1 if delivery fails), then fall through to the state write. -/
def recoveryPhase (w : World) (m : Int) (st : StateRec)
    (att : List (String × String)) : Trace :=
  match recoveryCheck w.humidity st.last_humidity m with
  | .error _ =>
      { connectAttempted := true
        stateLoaded := true
        attempted := att
        deliveryFailed := false
        crashed := true
        finalFile := w.fileState
        exitCode := 1 }
  | .ok fires =>
    if fires then
      let pair := (recoveryTitle, recoveryMsg w.humidity)
      match w.deliver recoveryTitle with
      | none => finishRun w st (att ++ [pair])
      | some _ =>
          { connectAttempted := true
            stateLoaded := true
            attempted := att ++ [pair]
            deliveryFailed := true
            crashed := false
            finalFile := w.fileState
            exitCode := 1 }
    else
      finishRun w st att

/-- The rising-edge block of main.py lines 128-133: send on fire
(`send_pushover_alert` exits with code 1 on any delivery failure), then
continue with the falling-edge block. -/
def risingPhase (w : World) (m : Int) (st : StateRec) : Trace :=
  if risingFires w.humidity st.last_humidity m then
    let pair := (risingTitle, risingMsg w.humidity)
    match w.deliver risingTitle with
    | none => recoveryPhase w m st [pair]
    | some _ =>
        { connectAttempted := true
          stateLoaded := true
          attempted := [pair]
          deliveryFailed := true
          crashed := false
          finalFile := w.fileState
          exitCode := 1 }
  else
    recoveryPhase w m st []

/-- One run of `main()` (main.py lines 62-144): require the CLI flag
(exit 1 if absent), require the six environment variables truthy
(exit 1 otherwise), connect (exit 1 on any connection failure), read
the humidity, load the state (uncaught exception unless the file is
missing or readable), evaluate the two threshold checks with their
notifications, then persist the new humidity and exit 0. -/
def runMain (w : World) : Trace :=
  match w.max_humidity with
  | none =>
      { connectAttempted := false
        stateLoaded := false
        attempted := []
        deliveryFailed := false
        crashed := false
        finalFile := w.fileState
        exitCode := 1 }
  | some m =>
    if envOk w.env then
      match w.connectResult with
      | .error _ =>
          { connectAttempted := true
            stateLoaded := false
            attempted := []
            deliveryFailed := false
            crashed := false
            finalFile := w.fileState
            exitCode := 1 }
      | .ok _ =>
        match load_state w.fileState with
        | .error _ =>
            { connectAttempted := true
              stateLoaded := true
              attempted := []
              deliveryFailed := false
              crashed := true
              finalFile := w.fileState
              exitCode := 1 }
        | .ok st => risingPhase w m st
    else
      { connectAttempted := false
        stateLoaded := false
        attempted := []
        deliveryFailed := false
        crashed := false
        finalFile := w.fileState
        exitCode := 1 }

/-- An environment with all six variables set to non-empty strings. -/
def goodEnv : Env :=
  { dyson_serial := some "serial"
    dyson_credential := some "credential"
    dyson_device_type := some "438"
    dyson_host := some "host"
    pushover_app_token := some "app"
    pushover_user_token := some "user" }

/-- A world that reaches the threshold evaluation: flag `m`, full
environment, successful connection, humidity `c`, a readable state file
whose record has `last_humidity = p`, and successful deliveries. -/
def evalWorld (m c : Int) (p : Option Int) : World :=
  { max_humidity := some m
    env := goodEnv
    connectResult := .ok ()
    humidity := c
    fileState := .content ⟨p⟩
    deliver := fun _ => none }

/-- Does this trace contain a notification attempt with the given title? -/
def hasAlert (t : Trace) (title : String) : Bool :=
  t.attempted.any (fun a => a.1 == title)

/-- First run (no state file) with the humidity below the threshold:
flag 60, full environment, successful connection, humidity 50. -/
def firstRunBelowWorld : World :=
  { max_humidity := some 60
    env := goodEnv
    connectResult := .ok ()
    humidity := 50
    fileState := .missing
    deliver := fun _ => none }

/-- A run whose rising-edge notification delivery fails with an HTTP
error: flag 60, humidity 70, no prior state. -/
def failingDeliveryWorld : World :=
  { max_humidity := some 60
    env := goodEnv
    connectResult := .ok ()
    humidity := 70
    fileState := .missing
    deliver := fun _ => some .httpError }

/-- A run with DYSON_SERIAL unset and everything else in place. -/
def noSerialWorld : World :=
  { max_humidity := some 60
    env := { goodEnv with dyson_serial := none }
    connectResult := .ok ()
    humidity := 50
    fileState := .missing
    deliver := fun _ => none }

/-- A run with PUSHOVER_APP_TOKEN set to the empty string and
everything else in place. -/
def emptyTokenWorld : World :=
  { max_humidity := some 60
    env := { goodEnv with pushover_app_token := some "" }
    connectResult := .ok ()
    humidity := 50
    fileState := .missing
    deliver := fun _ => none }

/-! ## Helper lemmas -/

lemma stateRec_update (st : StateRec) (x : Option Int) :
    { st with last_humidity := x } = (⟨x⟩ : StateRec) := by
  cases st; rfl

lemma finishRun_finalFile (w : World) (st : StateRec) (att : List (String × String)) :
    (finishRun w st att).finalFile = .content ⟨some w.humidity⟩ := by
  simp [finishRun, save_state, stateRec_update]

lemma risingFires_ge (c : Int) (p : Option Int) (m : Int)
    (h : risingFires c p m = true) : m ≤ c := by
  unfold risingFires at h
  by_cases hc : c ≥ m
  · exact hc
  · rw [if_neg hc] at h; exact absurd h (by simp)

lemma recoveryCheck_of_not_lt (c : Int) (p : Option Int) (m : Int)
    (h : ¬ c < m) : recoveryCheck c p m = .ok false := by
  unfold recoveryCheck
  rw [if_neg h]

lemma recoveryPhase_of_not_lt (w : World) (m : Int) (st : StateRec)
    (att : List (String × String)) (h : ¬ w.humidity < m) :
    recoveryPhase w m st att = finishRun w st att := by
  unfold recoveryPhase
  rw [recoveryCheck_of_not_lt _ _ _ h]
  rfl

/-- Every run ends in one of two ways: exit code 0 with the freshly
observed humidity persisted, or exit code 1 with the state file
untouched. -/
lemma runMain_outcomes (w : World) :
    ((runMain w).exitCode = 0 ∧ (runMain w).deliveryFailed = false ∧
     (runMain w).crashed = false ∧
     (runMain w).finalFile = .content ⟨some w.humidity⟩) ∨
    ((runMain w).exitCode = 1 ∧ (runMain w).finalFile = w.fileState) := by
  have hfin : ∀ st att, (finishRun w st att).exitCode = 0 ∧
      (finishRun w st att).deliveryFailed = false ∧
      (finishRun w st att).crashed = false ∧
      (finishRun w st att).finalFile = .content ⟨some w.humidity⟩ := by
    intro st att
    exact ⟨rfl, rfl, rfl, finishRun_finalFile w st att⟩
  have hrec : ∀ m st att,
      ((recoveryPhase w m st att).exitCode = 0 ∧
       (recoveryPhase w m st att).deliveryFailed = false ∧
       (recoveryPhase w m st att).crashed = false ∧
       (recoveryPhase w m st att).finalFile = .content ⟨some w.humidity⟩) ∨
      ((recoveryPhase w m st att).exitCode = 1 ∧
       (recoveryPhase w m st att).finalFile = w.fileState) := by
    intro m st att
    unfold recoveryPhase
    cases recoveryCheck w.humidity st.last_humidity m with
    | error e => exact Or.inr ⟨rfl, rfl⟩
    | ok fires =>
      cases fires with
      | false => exact Or.inl (hfin st att)
      | true =>
        simp only [if_true]
        cases w.deliver recoveryTitle with
        | none => exact Or.inl (hfin st _)
        | some e => exact Or.inr ⟨rfl, rfl⟩
  have hris : ∀ m st,
      ((risingPhase w m st).exitCode = 0 ∧
       (risingPhase w m st).deliveryFailed = false ∧
       (risingPhase w m st).crashed = false ∧
       (risingPhase w m st).finalFile = .content ⟨some w.humidity⟩) ∨
      ((risingPhase w m st).exitCode = 1 ∧
       (risingPhase w m st).finalFile = w.fileState) := by
    intro m st
    unfold risingPhase
    cases h : risingFires w.humidity st.last_humidity m with
    | false => exact hrec m st []
    | true =>
      simp only [if_true]
      cases w.deliver risingTitle with
      | none => exact hrec m st _
      | some e => exact Or.inr ⟨rfl, rfl⟩
  unfold runMain
  cases w.max_humidity with
  | none => exact Or.inr ⟨rfl, rfl⟩
  | some m =>
    cases envOk w.env with
    | false => exact Or.inr ⟨rfl, rfl⟩
    | true =>
      simp only [if_true]
      cases w.connectResult with
      | error e => exact Or.inr ⟨rfl, rfl⟩
      | ok u =>
        cases load_state w.fileState with
        | error e => exact Or.inr ⟨rfl, rfl⟩
        | ok st => exact hris m st

/-- A run attempts no notification, only the rising-edge one, or only
the recovery one — never both. -/
lemma runMain_attempted_cases (w : World) :
    (runMain w).attempted = [] ∨
    (runMain w).attempted = [(risingTitle, risingMsg w.humidity)] ∨
    (runMain w).attempted = [(recoveryTitle, recoveryMsg w.humidity)] := by
  have hrec : ∀ m st,
      (recoveryPhase w m st []).attempted = [] ∨
      (recoveryPhase w m st []).attempted = [(recoveryTitle, recoveryMsg w.humidity)] := by
    intro m st
    unfold recoveryPhase
    cases recoveryCheck w.humidity st.last_humidity m with
    | error e => exact Or.inl rfl
    | ok fires =>
      cases fires with
      | false => exact Or.inl rfl
      | true =>
        simp only [if_true]
        cases w.deliver recoveryTitle with
        | none => exact Or.inr (by simp [finishRun])
        | some e => exact Or.inr (by simp)
  have hris : ∀ m st,
      (risingPhase w m st).attempted = [] ∨
      (risingPhase w m st).attempted = [(risingTitle, risingMsg w.humidity)] ∨
      (risingPhase w m st).attempted = [(recoveryTitle, recoveryMsg w.humidity)] := by
    intro m st
    unfold risingPhase
    cases h : risingFires w.humidity st.last_humidity m with
    | false =>
      rcases hrec m st with h1 | h1
      · exact Or.inl h1
      · exact Or.inr (Or.inr h1)
    | true =>
      have hge : m ≤ w.humidity := risingFires_ge _ _ _ h
      simp only [if_true]
      cases w.deliver risingTitle with
      | none =>
        rw [recoveryPhase_of_not_lt w m st _ (not_lt.mpr hge)]
        exact Or.inr (Or.inl rfl)
      | some e => exact Or.inr (Or.inl rfl)
  unfold runMain
  cases w.max_humidity with
  | none => exact Or.inl rfl
  | some m =>
    cases envOk w.env with
    | false => exact Or.inl rfl
    | true =>
      simp only [if_true]
      cases w.connectResult with
      | error e => exact Or.inl rfl
      | ok u =>
        cases load_state w.fileState with
        | error e => exact Or.inl rfl
        | ok st => exact hris m st

lemma risingFires_iff (c : Int) (p : Option Int) (m : Int) :
    risingFires c p m = true ↔ (m ≤ c ∧ ∀ v, p = some v → v ≤ m) := by
  unfold risingFires
  by_cases hc : c ≥ m
  · rw [if_pos hc]
    cases p with
    | none => simp [hc]
    | some v => simp [hc]
  · rw [if_neg hc]
    simp only [Bool.false_eq_true, false_iff, not_and]
    intro hle
    exact absurd hle hc

lemma risingPhase_attempted_of_true (w : World) (m : Int) (st : StateRec)
    (h : risingFires w.humidity st.last_humidity m = true) :
    (risingPhase w m st).attempted = [(risingTitle, risingMsg w.humidity)] := by
  have hge := risingFires_ge _ _ _ h
  unfold risingPhase
  rw [h]
  simp only [if_true]
  cases hd : w.deliver risingTitle with
  | none => rw [recoveryPhase_of_not_lt w m st _ (not_lt.mpr hge)]; rfl
  | some e => rfl

lemma risingPhase_of_false (w : World) (m : Int) (st : StateRec)
    (h : risingFires w.humidity st.last_humidity m = false) :
    risingPhase w m st = recoveryPhase w m st [] := by
  unfold risingPhase
  rw [h]
  rfl

lemma recoveryPhase_of_error (w : World) (m : Int) (st : StateRec)
    (att : List (String × String)) (e : String)
    (h : recoveryCheck w.humidity st.last_humidity m = .error e) :
    recoveryPhase w m st att =
      { connectAttempted := true, stateLoaded := true, attempted := att,
        deliveryFailed := false, crashed := true, finalFile := w.fileState,
        exitCode := 1 } := by
  unfold recoveryPhase
  rw [h]

lemma recoveryPhase_of_ok_false (w : World) (m : Int) (st : StateRec)
    (att : List (String × String))
    (h : recoveryCheck w.humidity st.last_humidity m = .ok false) :
    recoveryPhase w m st att = finishRun w st att := by
  unfold recoveryPhase
  rw [h]
  rfl

lemma recoveryPhase_attempted_of_ok_true (w : World) (m : Int) (st : StateRec)
    (att : List (String × String))
    (h : recoveryCheck w.humidity st.last_humidity m = .ok true) :
    (recoveryPhase w m st att).attempted =
      att ++ [(recoveryTitle, recoveryMsg w.humidity)] := by
  unfold recoveryPhase
  rw [h]
  simp only [if_true]
  cases hd : w.deliver recoveryTitle with
  | none => rfl
  | some e => rfl

lemma recoveryPhase_of_ok_true_delivered (w : World) (m : Int) (st : StateRec)
    (att : List (String × String))
    (h : recoveryCheck w.humidity st.last_humidity m = .ok true)
    (hd : w.deliver recoveryTitle = none) :
    recoveryPhase w m st att =
      finishRun w st (att ++ [(recoveryTitle, recoveryMsg w.humidity)]) := by
  unfold recoveryPhase
  rw [h]
  simp only [if_true]
  rw [hd]

lemma runMain_evalWorld (m c : Int) (p : Option Int) :
    runMain (evalWorld m c p) = risingPhase (evalWorld m c p) m ⟨p⟩ := rfl

lemma envOk_false_of_none (e : Env)
    (h : e.dyson_serial = none ∨ e.dyson_credential = none ∨
         e.dyson_device_type = none ∨ e.dyson_host = none ∨
         e.pushover_app_token = none ∨ e.pushover_user_token = none) :
    envOk e = false := by
  unfold envOk
  rcases h with h | h | h | h | h | h <;> rw [h] <;> simp [envVarTruthy]

lemma envOk_false_of_empty (e : Env)
    (h : e.dyson_serial = some "" ∨ e.dyson_credential = some "" ∨
         e.dyson_device_type = some "" ∨ e.dyson_host = some "" ∨
         e.pushover_app_token = some "" ∨ e.pushover_user_token = some "") :
    envOk e = false := by
  unfold envOk
  rcases h with h | h | h | h | h | h <;> rw [h] <;> simp [envVarTruthy]

lemma runMain_configFail (w : World)
    (h : w.max_humidity = none ∨ envOk w.env = false) :
    runMain w =
      { connectAttempted := false, stateLoaded := false, attempted := [],
        deliveryFailed := false, crashed := false, finalFile := w.fileState,
        exitCode := 1 } := by
  unfold runMain
  cases hm : w.max_humidity with
  | none => rfl
  | some m =>
    rcases h with h | h
    · rw [hm] at h; exact absurd h (by simp)
    · rw [h]; rfl

/-! ## Claim theorems -/

/-- Claim C1: for every current humidity, previous humidity (possibly
absent) and threshold, the rising-edge alert (title Rel. humidity above
threshold) fires if and only if the current humidity is at least the
threshold and the previous one is absent or at most the threshold; in
particular it does not fire when the previous reading was already above
the threshold. -/
theorem rising_alert_iff (m c : Int) (p : Option Int) :
    ((risingTitle, risingMsg c) ∈ (runMain (evalWorld m c p)).attempted) ↔
      (m ≤ c ∧ ∀ v, p = some v → v ≤ m) := by
  rw [← risingFires_iff c p m, runMain_evalWorld]
  cases h : risingFires c p m with
  | true =>
    rw [risingPhase_attempted_of_true (evalWorld m c p) m ⟨p⟩ h]
    simp only [List.mem_singleton]
    exact iff_of_true rfl trivial
  | false =>
    rw [risingPhase_of_false (evalWorld m c p) m ⟨p⟩ h]
    simp only [Bool.false_eq_true, iff_false]
    cases hrc : recoveryCheck c p m with
    | error e =>
      rw [recoveryPhase_of_error (evalWorld m c p) m ⟨p⟩ [] e hrc]
      simp
    | ok b =>
      cases b with
      | false =>
        rw [recoveryPhase_of_ok_false (evalWorld m c p) m ⟨p⟩ [] hrc]
        simp [finishRun]
      | true =>
        rw [recoveryPhase_attempted_of_ok_true (evalWorld m c p) m ⟨p⟩ [] hrc]
        simp only [List.nil_append, List.mem_singleton, Prod.mk.injEq, not_and]
        intro ht
        exact absurd ht (by decide)

/-- Claim C3 counterexample: no world makes a single run attempt both
the rising-edge notification and the recovery notification — the two
conditions need the current humidity on both sides of the same
threshold. -/
theorem no_run_fires_both_alerts :
    ¬ ∃ w : World, hasAlert (runMain w) risingTitle = true ∧
        hasAlert (runMain w) recoveryTitle = true := by
  rintro ⟨w, h1, h2⟩
  rcases runMain_attempted_cases w with h | h | h
  · unfold hasAlert at h1
    rw [h] at h1
    exact absurd h1 (by simp)
  · unfold hasAlert at h2
    rw [h] at h2
    simp only [List.any_cons, List.any_nil, Bool.or_false] at h2
    exact absurd h2 (by decide)
  · unfold hasAlert at h1
    rw [h] at h1
    simp only [List.any_cons, List.any_nil, Bool.or_false] at h1
    exact absurd h1 (by decide)

/-- Claim C3 (amended): in any single run the rising-edge and the
recovery alert are mutually exclusive — at most one of the two
notifications is attempted, never both. -/
theorem alerts_mutually_exclusive (w : World) :
    (hasAlert (runMain w) risingTitle && hasAlert (runMain w) recoveryTitle)
      = false := by
  rcases runMain_attempted_cases w with h | h | h <;>
    simp only [hasAlert, h, List.any_cons, List.any_nil, Bool.or_false,
      List.any_eq_false, Bool.and_eq_false_iff] <;> decide

/-- Claim C2 (code behaviour at the failing input): on a first run
(missing state file, so the previous humidity is absent) with the
current humidity 50 below the threshold 60, the falling-edge check
compares None against the threshold and the run dies on an uncaught
TypeError: exit status 1, no alert attempted, state file not written.
The spec requires this case to fire no alert and not crash. -/
theorem first_run_below_threshold_crashes :
    (runMain firstRunBelowWorld).crashed = true ∧
    (runMain firstRunBelowWorld).exitCode = 1 ∧
    (runMain firstRunBelowWorld).attempted = [] ∧
    (runMain firstRunBelowWorld).finalFile = .missing :=
  ⟨rfl, rfl, rfl, rfl⟩

/-- Claim C4: whenever a notification delivery attempt fails, the run
exits with status 1 and the state file is left exactly as it was before
the run — the state write never happens after a failed delivery. -/
theorem delivery_failure_preserves_state (w : World)
    (h : (runMain w).deliveryFailed = true) :
    (runMain w).exitCode = 1 ∧ (runMain w).finalFile = w.fileState := by
  rcases runMain_outcomes w with ⟨_, hdf, _, _⟩ | ⟨h1, hf⟩
  · rw [h] at hdf
    exact absurd hdf (by decide)
  · exact ⟨h1, hf⟩

/-- Witness for claim C4: a concrete run whose rising-edge delivery
fails with an HTTP error exits 1 with the state file untouched. -/
theorem delivery_failure_preserves_state_witness :
    (runMain failingDeliveryWorld).deliveryFailed = true ∧
    ((runMain failingDeliveryWorld).exitCode = 1 ∧
     (runMain failingDeliveryWorld).finalFile = failingDeliveryWorld.fileState) :=
  ⟨rfl, delivery_failure_preserves_state failingDeliveryWorld rfl⟩

/-- Claim C5: every run that exits successfully has written a state
record whose last humidity is exactly the humidity read from the device
in that run, whether or not an alert fired. -/
theorem success_persists_current (w : World)
    (h : (runMain w).exitCode = 0) :
    (runMain w).finalFile = .content ⟨some w.humidity⟩ := by
  rcases runMain_outcomes w with ⟨_, _, _, hf⟩ | ⟨h1, _⟩
  · exact hf
  · rw [h1] at h
    exact absurd h (by decide)

/-- Witness for claim C5: a concrete successful run (threshold 60,
prior humidity 50, current humidity 55, no alert) persists 55. -/
theorem success_persists_current_witness :
    (runMain (evalWorld 60 55 (some 50))).exitCode = 0 ∧
    (runMain (evalWorld 60 55 (some 50))).finalFile = .content ⟨some 55⟩ :=
  ⟨rfl, success_persists_current (evalWorld 60 55 (some 50)) rfl⟩

/-- Claim C6: whenever the current humidity is below the threshold and
the previous reading was above it, exactly the recovery alert fires,
with title Rel. humidity OK and a message interpolating the current
humidity, and the run succeeds. -/
theorem recovery_alert_exact (c v m : Int) (h1 : c < m) (h2 : m < v) :
    (runMain (evalWorld m c (some v))).attempted =
      [("Rel. humidity OK",
        "Humidity returned to OK value (" ++ toString c ++ "%)")] ∧
    (runMain (evalWorld m c (some v))).exitCode = 0 := by
  have hrf : risingFires c (some v) m = false := by
    unfold risingFires
    rw [if_neg (not_le.mpr h1)]
  have hrc : recoveryCheck c (some v) m = .ok true := by
    unfold recoveryCheck
    rw [if_pos h1]
    simp [h2]
  rw [runMain_evalWorld, risingPhase_of_false (evalWorld m c (some v)) m ⟨some v⟩ hrf,
      recoveryPhase_of_ok_true_delivered (evalWorld m c (some v)) m ⟨some v⟩ [] hrc rfl]
  exact ⟨rfl, rfl⟩

/-- Witness for claim C6: the spec scenario threshold 60, prior
humidity 65, current humidity 55 sends exactly the recovery alert with
the message containing 55, and the run succeeds. -/
theorem recovery_alert_exact_witness :
    (55 : Int) < 60 ∧ (60 : Int) < 65 ∧
    (runMain (evalWorld 60 55 (some 65))).attempted =
      [("Rel. humidity OK", "Humidity returned to OK value (55%)")] ∧
    (runMain (evalWorld 60 55 (some 65))).exitCode = 0 := by
  have h := recovery_alert_exact 55 65 60 (by decide) (by decide)
  refine ⟨by decide, by decide, ?_, h.2⟩
  rw [h.1]
  rfl

/-- Claim C7: load returns the persisted record when the file is
readable, the empty record on a missing file, and an error (never
silently an empty record) on any other read failure. -/
theorem load_state_spec :
    load_state .missing = .ok emptyState ∧
    (∀ r, load_state (.content r) = .ok r) ∧
    (∃ msg, load_state .unreadable = .error msg) ∧
    (∀ fs, load_state fs = .ok emptyState ↔
      fs = .missing ∨ fs = .content emptyState) := by
  refine ⟨rfl, fun r => rfl, ⟨_, rfl⟩, fun fs => ?_⟩
  cases fs with
  | missing => simp [load_state]
  | unreadable => simp [load_state]
  | content r => simp [load_state, eq_comm]

/-- Claim C8: saving a record and loading it back yields an equal
record, and saving replaces the prior file contents entirely, whatever
they were. -/
theorem save_load_roundtrip (r : StateRec) (fs : FileState) :
    load_state (save_state r fs) = .ok r ∧ save_state r fs = .content r :=
  ⟨rfl, rfl⟩

/-- Claim C9: if the CLI flag is absent or any of the six required
environment variables is unset, the run exits with code 1 before the
device connection, before the state file is touched, and before any
notification attempt. -/
theorem missing_config_exits_before_side_effects (w : World)
    (h : w.max_humidity = none ∨ w.env.dyson_serial = none ∨
         w.env.dyson_credential = none ∨ w.env.dyson_device_type = none ∨
         w.env.dyson_host = none ∨ w.env.pushover_app_token = none ∨
         w.env.pushover_user_token = none) :
    (runMain w).exitCode = 1 ∧ (runMain w).connectAttempted = false ∧
    (runMain w).stateLoaded = false ∧ (runMain w).attempted = [] ∧
    (runMain w).finalFile = w.fileState := by
  have hcf := runMain_configFail w (by
    rcases h with h | h
    · exact Or.inl h
    · exact Or.inr (envOk_false_of_none w.env h))
  rw [hcf]
  exact ⟨rfl, rfl, rfl, rfl, rfl⟩

/-- Witness for claim C9: a concrete run with DYSON_SERIAL unset exits
with code 1 having produced no side effect. -/
theorem missing_config_exits_before_side_effects_witness :
    noSerialWorld.env.dyson_serial = none ∧
    ((runMain noSerialWorld).exitCode = 1 ∧
     (runMain noSerialWorld).connectAttempted = false ∧
     (runMain noSerialWorld).stateLoaded = false ∧
     (runMain noSerialWorld).attempted = [] ∧
     (runMain noSerialWorld).finalFile = noSerialWorld.fileState) :=
  ⟨rfl, missing_config_exits_before_side_effects noSerialWorld
    (Or.inr (Or.inl rfl))⟩

/-- Claim C10: a required environment variable set to the empty string
fails the all-or-nothing validation exactly like an absent one, and the
run exits with code 1 before any side effect. -/
theorem empty_env_var_rejected (w : World)
    (h : w.env.dyson_serial = some "" ∨ w.env.dyson_credential = some "" ∨
         w.env.dyson_device_type = some "" ∨ w.env.dyson_host = some "" ∨
         w.env.pushover_app_token = some "" ∨
         w.env.pushover_user_token = some "") :
    envOk w.env = false ∧
    (runMain w).exitCode = 1 ∧ (runMain w).connectAttempted = false ∧
    (runMain w).attempted = [] ∧ (runMain w).finalFile = w.fileState := by
  have he := envOk_false_of_empty w.env h
  have hcf := runMain_configFail w (Or.inr he)
  rw [hcf]
  exact ⟨he, rfl, rfl, rfl, rfl⟩

/-- Witness for claim C10: a concrete run with PUSHOVER_APP_TOKEN set
to the empty string fails validation and exits with code 1. -/
theorem empty_env_var_rejected_witness :
    emptyTokenWorld.env.pushover_app_token = some "" ∧
    (envOk emptyTokenWorld.env = false ∧
     (runMain emptyTokenWorld).exitCode = 1 ∧
     (runMain emptyTokenWorld).connectAttempted = false ∧
     (runMain emptyTokenWorld).attempted = [] ∧
     (runMain emptyTokenWorld).finalFile = emptyTokenWorld.fileState) :=
  ⟨rfl, empty_env_var_rejected emptyTokenWorld
    (Or.inr (Or.inr (Or.inr (Or.inr (Or.inl rfl)))))⟩

end DysonAlert
